import Mathlib

/-!
# Verification of the user/message service layer

Shallow embedding of the request-validation + persistence-mapping layer of the
repository: the user service (`toSafeUser`, `saveUser`, `getUserByUsername`,
`loginUser`, `deleteUserByUsername`, `updateUser`), the message service
(`saveMessage`, `getMessages`), and the relevant request handlers
(`getUser`, `deleteUser`, message-route timestamp normalization).

The services are written against an abstract persistence adapter that can
either answer or throw, mirroring the `try`/`catch` structure of the source.
A concrete list-based adapter (`listAdapter`, `listMsgAdapter`) gives the
document store its natural sequential semantics and records the calls made.
-/

/-- Models JavaScript `String.prototype.trim` whitespace (ASCII subset:
space, tab, line feed, carriage return, vertical tab, form feed). -/
def isJsWhitespace (c : Char) : Bool :=
  c = ' ' || c = '\t' || c = '\n' || c = '\r' || c = '\x0b' || c = '\x0c'

/-- Models JavaScript `String.prototype.trim`: removes leading and trailing
whitespace characters from the string, computed over the character list. -/
def jsTrim (s : String) : String :=
  ⟨((s.data.dropWhile isJsWhitespace).reverse.dropWhile isJsWhitespace).reverse⟩

/-- A JavaScript `Date` value: either a valid instant (milliseconds since
epoch, as an integer) or the `Invalid Date` value (whose time is `NaN`). -/
inductive JSDate where
  | valid (t : Int)
  | invalid
deriving DecidableEq

/-- Values that can occur in a plain document object returned by the store
(`.lean()` / `.toObject()` in the source). `undef` models JavaScript
`undefined`, the result of reading an absent key. -/
inductive DVal where
  | vStr (s : String)
  | vInt (n : Int)
  | vId (n : Nat)
  | undef
deriving DecidableEq

/-- A plain document object: an association list of keys to values. -/
abbrev Doc := List (String × DVal)

/-- Reading key `k` of a document, as JavaScript property access /
destructuring does: the first binding if present, `undefined` otherwise. -/
def dget (d : Doc) (k : String) : DVal :=
  (((d.find? (fun kv => kv.1 == k)).map (fun kv => kv.2)).getD DVal.undef)

/-- The keys of a document object. -/
def docKeys (d : Doc) : List String := d.map (fun kv => kv.1)

/-- Embeds `toSafeUser` (src/server/services/user.service.ts:10-13): destructures
`_id`, `username`, `dateJoined` out of the user document and rebuilds a fresh
object holding exactly those three keys, dropping `password` and anything
else unconditionally. -/
def toSafeUser (u : Doc) : Doc :=
  [("_id", dget u "_id"), ("username", dget u "username"),
   ("dateJoined", dget u "dateJoined")]

/-- A full user record as stored by the persistence layer
(`username`, `password`, `dateJoined` per the schema, plus Mongo's `_id`). -/
structure UserRec where
  _id : Nat
  username : String
  password : String
  dateJoined : Int
deriving DecidableEq

/-- The plain document object (`.lean()` / `.toObject()`) of a stored user. -/
def userToDoc (r : UserRec) : Doc :=
  [("_id", DVal.vId r._id), ("username", DVal.vStr r.username),
   ("password", DVal.vStr r.password), ("dateJoined", DVal.vInt r.dateJoined)]

/-- Result type `UserResponse`: a safe user document or a tagged error message. -/
inductive UserResponse where
  | ok (user : Doc)
  | error (msg : String)
deriving DecidableEq

/-- Outcome of a persistence-adapter call: an answer, or a thrown exception
carrying the driver's error text. -/
inductive DBRes (α : Type) where
  | ok (a : α)
  | threw (e : String)
deriving DecidableEq

/-- The `$set` patch passed to `findOneAndUpdate`. The source only ever
assigns the `username` and `password` keys; `dateJoined` (and `_id`) are
representable in a patch but never placed there by `updateUser`. -/
structure Patch where
  username : Option String := none
  password : Option String := none
  dateJoined : Option Int := none
deriving DecidableEq

/-- The argument of `saveUser` (TS type `User`); `dateJoined` may be present
but the service never reads it. -/
structure UserInput where
  username : String
  password : String
  dateJoined : Option Int := none
deriving DecidableEq

/-- The argument of `loginUser` (TS type `UserCredentials`). -/
structure UserCredentials where
  username : String
  password : String
deriving DecidableEq

/-- The argument of `updateUser` (TS type `Partial<User>`): each recognized
field may be present or absent. -/
structure PartialUser where
  username : Option String := none
  password : Option String := none
  dateJoined : Option Int := none
deriving DecidableEq

/-- The persistence adapter interface used by the user service, over an
abstract store state `σ`. Every operation may throw. -/
structure Adapter (σ : Type) where
  findOne : String → σ → DBRes (Option UserRec) × σ
  create : String → String → Int → σ → DBRes UserRec × σ
  findOneAndDelete : String → σ → DBRes (Option UserRec) × σ
  findOneAndUpdate : String → Patch → σ → DBRes (Option UserRec) × σ

/-- Embeds `saveUser` (src/server/services/user.service.ts:23-40): trims username
and password, fails with `"Username already exists"` when a record with that
username exists, otherwise creates the record with `dateJoined = now` and
returns the safe projection; any thrown adapter error is caught and replaced
by `"Failed to create user"`. -/
def saveUser {σ : Type} (A : Adapter σ) (now : Int) (user : UserInput)
    (s : σ) : UserResponse × σ :=
  let username := jsTrim user.username
  let password := jsTrim user.password
  match A.findOne username s with
  | (DBRes.threw _, s1) => (UserResponse.error "Failed to create user", s1)
  | (DBRes.ok (some _), s1) => (UserResponse.error "Username already exists", s1)
  | (DBRes.ok none, s1) =>
    match A.create username password now s1 with
    | (DBRes.threw _, s2) => (UserResponse.error "Failed to create user", s2)
    | (DBRes.ok newUser, s2) =>
      (UserResponse.ok (toSafeUser (userToDoc newUser)), s2)

/-- Embeds `getUserByUsername` (src/server/services/user.service.ts:48-57): trims
the input, `"User not found"` when absent, otherwise the safe projection;
thrown adapter errors become `"Failed to get user"`. -/
def getUserByUsername {σ : Type} (A : Adapter σ) (username : String)
    (s : σ) : UserResponse × σ :=
  let u := jsTrim username
  match A.findOne u s with
  | (DBRes.threw _, s1) => (UserResponse.error "Failed to get user", s1)
  | (DBRes.ok none, s1) => (UserResponse.error "User not found", s1)
  | (DBRes.ok (some doc), s1) =>
    (UserResponse.ok (toSafeUser (userToDoc doc)), s1)

/-- Embeds `loginUser` (src/server/services/user.service.ts:65-77): trims both
credentials, looks the username up, and fails with `"Invalid credentials"`
when there is no match or the stored password differs from the trimmed
supplied password; thrown adapter errors become `"Failed to login"`. -/
def loginUser {σ : Type} (A : Adapter σ) (loginCredentials : UserCredentials)
    (s : σ) : UserResponse × σ :=
  let username := jsTrim loginCredentials.username
  let password := jsTrim loginCredentials.password
  match A.findOne username s with
  | (DBRes.threw _, s1) => (UserResponse.error "Failed to login", s1)
  | (DBRes.ok none, s1) => (UserResponse.error "Invalid credentials", s1)
  | (DBRes.ok (some doc), s1) =>
    if doc.password = password then
      (UserResponse.ok (toSafeUser (userToDoc doc)), s1)
    else (UserResponse.error "Invalid credentials", s1)

/-- Embeds `deleteUserByUsername` (src/server/services/user.service.ts:85-96):
trims the input and atomically finds-and-removes; `"User not found"` when
none matched; thrown adapter errors become `"Failed to delete user"`. -/
def deleteUserByUsername {σ : Type} (A : Adapter σ) (username : String)
    (s : σ) : UserResponse × σ :=
  let u := jsTrim username
  match A.findOneAndDelete u s with
  | (DBRes.threw _, s1) => (UserResponse.error "Failed to delete user", s1)
  | (DBRes.ok none, s1) => (UserResponse.error "User not found", s1)
  | (DBRes.ok (some doc), s1) =>
    (UserResponse.ok (toSafeUser (userToDoc doc)), s1)

/-- The patch built by `updateUser` (src/server/services/user.service.ts:
112-114): only the present, string-typed `password` and `username` fields
are placed in the patch, each trimmed; nothing else is ever assigned. -/
def buildPatch (updates : PartialUser) : Patch :=
  let p0 : Patch := {}
  let p1 := match updates.password with
    | some pw => { p0 with password := some (jsTrim pw) }
    | none => p0
  match updates.username with
  | some un => { p1 with username := some (jsTrim un) }
  | none => p1

/-- Embeds `updateUser` (src/server/services/user.service.ts:105-127): trims the
name, builds the patch, applies it atomically via `findOneAndUpdate` with
`new: true` (returning the post-update record), `"User not found"` when no
match; thrown adapter errors become `"Failed to update user"`. -/
def updateUser {σ : Type} (A : Adapter σ) (username : String)
    (updates : PartialUser) (s : σ) : UserResponse × σ :=
  let u := jsTrim username
  let patch := buildPatch updates
  match A.findOneAndUpdate u patch s with
  | (DBRes.threw _, s1) => (UserResponse.error "Failed to update user", s1)
  | (DBRes.ok none, s1) => (UserResponse.error "User not found", s1)
  | (DBRes.ok (some updated), s1) =>
    (UserResponse.ok (toSafeUser (userToDoc updated)), s1)

/-- A user-service adapter call, for observing which persistence operations
a service run performed. -/
inductive DBCall where
  | findOne (username : String)
  | create (username password : String) (dateJoined : Int)
  | findOneAndDelete (username : String)
  | findOneAndUpdate (username : String) (patch : Patch)
deriving DecidableEq

/-- The user collection held by the concrete document store. -/
abbrev Store := List UserRec

/-- Concrete adapter state: the stored records plus the log of calls made. -/
abbrev DBState := Store × List DBCall

/-- First stored record whose `username` equals `u` (Mongo `findOne`). -/
def findFirst (u : String) (s : Store) : Option UserRec :=
  s.find? (fun r => r.username == u)

/-- Removes the first record whose `username` equals `u`. -/
def removeFirst (u : String) : Store → Store
  | [] => []
  | r :: rs => if r.username == u then rs else r :: removeFirst u rs

/-- Mongo `$set` semantics: each key present in the patch overwrites the record's
field; absent keys leave the field unchanged. -/
def applyPatch (p : Patch) (r : UserRec) : UserRec :=
  { r with
    username := p.username.getD r.username,
    password := p.password.getD r.password,
    dateJoined := p.dateJoined.getD r.dateJoined }

/-- Applies the patch to the first record whose `username` equals `u`. -/
def updateFirst (u : String) (p : Patch) : Store → Store
  | [] => []
  | r :: rs => if r.username == u then applyPatch p r :: rs
               else r :: updateFirst u p rs

/-- The persistence adapter behind `UserModel` with its natural sequential
semantics over a list of records (the fetch/mutate behavior of the external
document store is modelled from the spec): `findOne` returns the first
match; `create` validates the document against the schema declared in
src/server/models/schema/user.schema.ts — `required: true` on the string
fields `username` and `password` rejects empty strings (Mongoose's string
`required` check), throwing a `ValidationError` — then enforces the
schema's `unique: true` on `username` by throwing a duplicate-key error,
and otherwise appends a fresh record; `findOneAndDelete` and
`findOneAndUpdate` atomically mutate the first match (`findOneAndUpdate`
runs no validators, Mongoose's default for updates). Every call is
recorded in the call log. -/
def listAdapter : Adapter DBState where
  findOne u := fun st =>
    (DBRes.ok (findFirst u st.1), (st.1, st.2 ++ [DBCall.findOne u]))
  create un pw dj := fun st =>
    if un = "" ∨ pw = "" then
      (DBRes.threw "ValidationError", (st.1, st.2 ++ [DBCall.create un pw dj]))
    else if (findFirst un st.1).isSome then
      (DBRes.threw "E11000 duplicate key", (st.1, st.2 ++ [DBCall.create un pw dj]))
    else
      (DBRes.ok ⟨st.1.length, un, pw, dj⟩,
       (st.1 ++ [⟨st.1.length, un, pw, dj⟩], st.2 ++ [DBCall.create un pw dj]))
  findOneAndDelete u := fun st =>
    match findFirst u st.1 with
    | none => (DBRes.ok none, (st.1, st.2 ++ [DBCall.findOneAndDelete u]))
    | some r =>
      (DBRes.ok (some r), (removeFirst u st.1, st.2 ++ [DBCall.findOneAndDelete u]))
  findOneAndUpdate u p := fun st =>
    match findFirst u st.1 with
    | none => (DBRes.ok none, (st.1, st.2 ++ [DBCall.findOneAndUpdate u p]))
    | some r =>
      (DBRes.ok (some (applyPatch p r)),
       (updateFirst u p st.1, st.2 ++ [DBCall.findOneAndUpdate u p]))

/-- An adapter whose every operation throws with text `e`: the image of a
raising persistence layer. -/
def throwAdapter (σ : Type) (e : String) (s0 : σ) : Adapter σ where
  findOne _ := fun _ => (DBRes.threw e, s0)
  create _ _ _ := fun _ => (DBRes.threw e, s0)
  findOneAndDelete _ := fun _ => (DBRes.threw e, s0)
  findOneAndUpdate _ _ := fun _ => (DBRes.threw e, s0)

/-- Ordering on `JSDate` used to model sorting by timestamp. On two valid
dates it is exactly `getTime` comparison, the only case the theorems below
rely on; `Invalid Date` (whose `getTime` is `NaN`, with no sane JS ordering)
is arbitrarily placed first to keep the relation total and transitive. -/
def dateLe : JSDate → JSDate → Prop
  | JSDate.invalid, _ => True
  | JSDate.valid _, JSDate.invalid => False
  | JSDate.valid x, JSDate.valid y => x ≤ y

instance : DecidableRel dateLe
  | JSDate.invalid, _ => isTrue trivial
  | JSDate.valid _, JSDate.invalid => isFalse id
  | JSDate.valid x, JSDate.valid y => inferInstanceAs (Decidable (x ≤ y))

/-- A stored message record (`msg`, `msgFrom`, `msgDateTime` per the schema,
plus Mongo's `_id`). `msgDateTime` is whatever `Date` was stored, valid or
not. -/
structure MessageRec where
  _id : Nat
  msg : String
  msgFrom : String
  msgDateTime : JSDate
deriving DecidableEq

/-- The argument of `saveMessage` (TS type `Message`): `msgDateTime` may be
absent, in which case the service fills the current clock. -/
structure MessageInput where
  msg : String
  msgFrom : String
  msgDateTime : Option JSDate := none
deriving DecidableEq

/-- Result type `MessageResponse`: the full created message record (no safe projection
exists for messages) or a tagged error message. -/
inductive MessageResponse where
  | ok (m : MessageRec)
  | error (msg : String)
deriving DecidableEq

/-- The comparator of `getMessages` (src `message.service`, line 42-44):
`new Date(a.msgDateTime).getTime() - new Date(b.msgDateTime).getTime()`,
i.e. ascending timestamp order, as `dateLe` on the stored dates. -/
def msgLe (a b : MessageRec) : Prop := dateLe a.msgDateTime b.msgDateTime

instance : DecidableRel msgLe := fun a b =>
  inferInstanceAs (Decidable (dateLe a.msgDateTime b.msgDateTime))

instance : IsTotal MessageRec msgLe where
  total a b := by
    unfold msgLe
    cases a.msgDateTime <;> cases b.msgDateTime <;> simp [dateLe]
    omega

instance : IsTrans MessageRec msgLe where
  trans a b c := by
    unfold msgLe
    cases a.msgDateTime <;> cases b.msgDateTime <;> cases c.msgDateTime <;>
      simp [dateLe]
    all_goals omega

/-- The persistence adapter interface used by the message service: `create`,
and the fetch `find({}).sort({msgDateTime: 1})`. Every operation may throw. -/
structure MsgAdapter (σ : Type) where
  create : String → String → JSDate → σ → DBRes MessageRec × σ
  findSorted : σ → DBRes (List MessageRec) × σ

/-- Embeds `saveMessage` (src `message.service`, lines 14-32): trims `msg` and
`msgFrom`, computes the timestamp (the supplied `Date` if present, the
current clock otherwise), fails with `"Invalid message body"` when either
trimmed field is empty, otherwise persists and returns the full created
record; thrown adapter errors become `"Failed to save message"`. -/
def saveMessage {σ : Type} (A : MsgAdapter σ) (now : Int)
    (message : MessageInput) (s : σ) : MessageResponse × σ :=
  let text := jsTrim message.msg
  let sender := jsTrim message.msgFrom
  let timestamp := match message.msgDateTime with
    | some d => d
    | none => JSDate.valid now
  if text = "" ∨ sender = "" then (MessageResponse.error "Invalid message body", s)
  else
    match A.create text sender timestamp s with
    | (DBRes.threw _, s1) => (MessageResponse.error "Failed to save message", s1)
    | (DBRes.ok created, s1) => (MessageResponse.ok created, s1)

/-- Embeds `getMessages` (src `message.service`, lines 39-48): fetches all messages
sorted by the store, re-sorts them by ascending timestamp with the stable
JavaScript `Array.prototype.sort` (modelled by the stable `insertionSort`),
and returns `[]` when anything throws. -/
def getMessages {σ : Type} (A : MsgAdapter σ) (s : σ) :
    List MessageRec × σ :=
  match A.findSorted s with
  | (DBRes.threw _, s1) => ([], s1)
  | (DBRes.ok list, s1) => (List.insertionSort msgLe list, s1)

/-- Modelled from the spec: the message document store with its natural
sequential semantics over a list of records. `create` appends a record with
a fresh id; `findSorted` answers `find({}).sort({msgDateTime: 1})`, every
message in ascending timestamp order with ties in stable/insertion order
(the tie-break the spec documents for the fetch). -/
def listMsgAdapter : MsgAdapter (List MessageRec) where
  create text sender timestamp := fun s =>
    (DBRes.ok ⟨s.length, text, sender, timestamp⟩,
     s ++ [⟨s.length, text, sender, timestamp⟩])
  findSorted := fun s => (DBRes.ok (List.insertionSort msgLe s), s)

/-- A message adapter whose every operation throws with text `e`. -/
def throwMsgAdapter (e : String) : MsgAdapter (List MessageRec) where
  create _ _ _ := fun s => (DBRes.threw e, s)
  findSorted := fun s => (DBRes.threw e, s)

/-- A JSON value arriving in a request body (the shapes relevant to the
`msgDateTime` passthrough: strings and numbers). -/
inductive JSONVal where
  | jstr (s : String)
  | jnum (n : Int)
deriving DecidableEq

/-- JavaScript truthiness of a JSON value: the empty string and `0` are
falsy. -/
def JSONVal.truthy : JSONVal → Bool
  | JSONVal.jstr s => !(s = "")
  | JSONVal.jnum n => !(n = 0)

/-- Models `new Date(v)` on a JSON value: a number is taken as milliseconds since
epoch; a string goes through the platform date parser `dateOf` (passed in,
since its exact grammar lives outside the sources), which may yield
`Invalid Date`. -/
def parseJSDate (dateOf : String → JSDate) : JSONVal → JSDate
  | JSONVal.jstr s => dateOf s
  | JSONVal.jnum n => JSDate.valid n

/-- The `msgDateTime` normalization of `addMessageRoute` (message controller,
lines 53-58): `incoming.msgDateTime ? new Date(incoming.msgDateTime) : new
Date()` — the supplied value is parsed when it is present and truthy, and
the current clock is used otherwise. -/
def normalizeMsgDateTime (dateOf : String → JSDate) (now : Int)
    (incoming : Option JSONVal) : JSDate :=
  match incoming with
  | some v => if v.truthy then parseJSDate dateOf v else JSDate.valid now
  | none => JSDate.valid now

/-- The request type of the `getUser`/`deleteUser` handlers: a `:username`
path parameter and whatever `username` the JSON body carries. -/
structure UserByUsernameRequest where
  paramsUsername : Option String := none
  bodyUsername : Option String := none
deriving DecidableEq

/-- An observable step taken by a request handler. -/
inductive HEvent where
  | resStatusSend (code : Nat) (text : String)
  | resStatusJson (code : Nat) (body : UserResponse)
  | svcCall (username : Option String)
deriving DecidableEq

/-- JavaScript falsiness of `req?.body?.username`: absent or empty string. -/
def strFalsy : Option String → Bool
  | none => true
  | some s => s = ""

/-- The `getUser` handler (src/server/controllers/user.controller.ts:92-108)
as its sequence of observable steps: reads the username from the request
body, sends 400 when it is falsy but does not return, then always calls
`getUserByUsername` (abstracted as `svc`) with that body username and sends
500 on a service error, 200 otherwise. -/
def getUser (svc : Option String → UserResponse)
    (req : UserByUsernameRequest) : List HEvent :=
  let uname := req.bodyUsername
  let pre := if strFalsy uname then
    [HEvent.resStatusSend 400 "Invalid username is required"] else []
  let resp := svc uname
  pre ++ [HEvent.svcCall uname] ++
    (match resp with
     | UserResponse.error _ => [HEvent.resStatusJson 500 resp]
     | UserResponse.ok _ => [HEvent.resStatusJson 200 resp])

/-- The `deleteUser` handler (src/server/controllers/user.controller.ts:
116-132), identical in shape to `getUser`: body username, non-returning 400
on falsy, unconditional call of `deleteUserByUsername` (abstracted as
`svc`). -/
def deleteUser (svc : Option String → UserResponse)
    (req : UserByUsernameRequest) : List HEvent :=
  let uname := req.bodyUsername
  let pre := if strFalsy uname then
    [HEvent.resStatusSend 400 "Invalid username is required"] else []
  let resp := svc uname
  pre ++ [HEvent.svcCall uname] ++
    (match resp with
     | UserResponse.error _ => [HEvent.resStatusJson 500 resp]
     | UserResponse.ok _ => [HEvent.resStatusJson 200 resp])

/-! ## Helper lemmas -/

theorem docKeys_toSafeUser (u : Doc) :
    docKeys (toSafeUser u) = ["_id", "username", "dateJoined"] := rfl

theorem password_not_mem_toSafeUser (u : Doc) :
    "password" ∉ docKeys (toSafeUser u) := by
  show "password" ∉ ["_id", "username", "dateJoined"]
  decide

theorem saveUser_shape {σ : Type} (A : Adapter σ) (now : Int)
    (inp : UserInput) (s : σ) :
    (saveUser A now inp s).1 = UserResponse.error "Failed to create user" ∨
    (saveUser A now inp s).1 = UserResponse.error "Username already exists" ∨
    ∃ r : UserRec,
      (saveUser A now inp s).1 = UserResponse.ok (toSafeUser (userToDoc r)) := by
  unfold saveUser
  dsimp only
  split
  · exact Or.inl rfl
  · exact Or.inr (Or.inl rfl)
  · split
    · exact Or.inl rfl
    · exact Or.inr (Or.inr ⟨_, rfl⟩)

theorem getUserByUsername_shape {σ : Type} (A : Adapter σ) (name : String)
    (s : σ) :
    (getUserByUsername A name s).1 = UserResponse.error "Failed to get user" ∨
    (getUserByUsername A name s).1 = UserResponse.error "User not found" ∨
    ∃ r : UserRec,
      (getUserByUsername A name s).1 = UserResponse.ok (toSafeUser (userToDoc r)) := by
  unfold getUserByUsername
  dsimp only
  split
  · exact Or.inl rfl
  · exact Or.inr (Or.inl rfl)
  · exact Or.inr (Or.inr ⟨_, rfl⟩)

theorem loginUser_shape {σ : Type} (A : Adapter σ) (creds : UserCredentials)
    (s : σ) :
    (loginUser A creds s).1 = UserResponse.error "Failed to login" ∨
    (loginUser A creds s).1 = UserResponse.error "Invalid credentials" ∨
    ∃ r : UserRec,
      (loginUser A creds s).1 = UserResponse.ok (toSafeUser (userToDoc r)) := by
  unfold loginUser
  dsimp only
  split
  · exact Or.inl rfl
  · exact Or.inr (Or.inl rfl)
  · split
    · exact Or.inr (Or.inr ⟨_, rfl⟩)
    · exact Or.inr (Or.inl rfl)

theorem deleteUserByUsername_shape {σ : Type} (A : Adapter σ) (name : String)
    (s : σ) :
    (deleteUserByUsername A name s).1 = UserResponse.error "Failed to delete user" ∨
    (deleteUserByUsername A name s).1 = UserResponse.error "User not found" ∨
    ∃ r : UserRec,
      (deleteUserByUsername A name s).1 = UserResponse.ok (toSafeUser (userToDoc r)) := by
  unfold deleteUserByUsername
  dsimp only
  split
  · exact Or.inl rfl
  · exact Or.inr (Or.inl rfl)
  · exact Or.inr (Or.inr ⟨_, rfl⟩)

theorem updateUser_shape {σ : Type} (A : Adapter σ) (name : String)
    (upd : PartialUser) (s : σ) :
    (updateUser A name upd s).1 = UserResponse.error "Failed to update user" ∨
    (updateUser A name upd s).1 = UserResponse.error "User not found" ∨
    ∃ r : UserRec,
      (updateUser A name upd s).1 = UserResponse.ok (toSafeUser (userToDoc r)) := by
  unfold updateUser
  dsimp only
  split
  · exact Or.inl rfl
  · exact Or.inr (Or.inl rfl)
  · exact Or.inr (Or.inr ⟨_, rfl⟩)

/-! ## Claim theorems -/

/-- C1: for every user document `u` (including query results missing other
fields), `toSafeUser u` is exactly the projection onto the keys `_id`,
`username`, `dateJoined` and its output never contains a `password` key;
consequently every successful result of `saveUser`, `getUserByUsername`,
`loginUser`, `deleteUserByUsername` and `updateUser` — over any adapter
behavior — has no `password` field. -/
theorem c1_toSafeUser_drops_password :
    (∀ u : Doc, docKeys (toSafeUser u) = ["_id", "username", "dateJoined"] ∧
      "password" ∉ docKeys (toSafeUser u)) ∧
    (∀ (σ : Type) (A : Adapter σ) (now : Int) (inp : UserInput) (s : σ) (d : Doc),
      (saveUser A now inp s).1 = UserResponse.ok d → "password" ∉ docKeys d) ∧
    (∀ (σ : Type) (A : Adapter σ) (name : String) (s : σ) (d : Doc),
      (getUserByUsername A name s).1 = UserResponse.ok d → "password" ∉ docKeys d) ∧
    (∀ (σ : Type) (A : Adapter σ) (creds : UserCredentials) (s : σ) (d : Doc),
      (loginUser A creds s).1 = UserResponse.ok d → "password" ∉ docKeys d) ∧
    (∀ (σ : Type) (A : Adapter σ) (name : String) (s : σ) (d : Doc),
      (deleteUserByUsername A name s).1 = UserResponse.ok d → "password" ∉ docKeys d) ∧
    (∀ (σ : Type) (A : Adapter σ) (name : String) (upd : PartialUser) (s : σ) (d : Doc),
      (updateUser A name upd s).1 = UserResponse.ok d → "password" ∉ docKeys d) := by
  refine ⟨fun u => ⟨rfl, password_not_mem_toSafeUser u⟩, ?_, ?_, ?_, ?_, ?_⟩
  · intro σ A now inp s d h
    rcases saveUser_shape A now inp s with h1 | h1 | ⟨r, h1⟩ <;> rw [h1] at h
    · exact UserResponse.noConfusion h
    · exact UserResponse.noConfusion h
    · injection h with h2
      exact h2 ▸ password_not_mem_toSafeUser _
  · intro σ A name s d h
    rcases getUserByUsername_shape A name s with h1 | h1 | ⟨r, h1⟩ <;> rw [h1] at h
    · exact UserResponse.noConfusion h
    · exact UserResponse.noConfusion h
    · injection h with h2
      exact h2 ▸ password_not_mem_toSafeUser _
  · intro σ A creds s d h
    rcases loginUser_shape A creds s with h1 | h1 | ⟨r, h1⟩ <;> rw [h1] at h
    · exact UserResponse.noConfusion h
    · exact UserResponse.noConfusion h
    · injection h with h2
      exact h2 ▸ password_not_mem_toSafeUser _
  · intro σ A name s d h
    rcases deleteUserByUsername_shape A name s with h1 | h1 | ⟨r, h1⟩ <;> rw [h1] at h
    · exact UserResponse.noConfusion h
    · exact UserResponse.noConfusion h
    · injection h with h2
      exact h2 ▸ password_not_mem_toSafeUser _
  · intro σ A name upd s d h
    rcases updateUser_shape A name upd s with h1 | h1 | ⟨r, h1⟩ <;> rw [h1] at h
    · exact UserResponse.noConfusion h
    · exact UserResponse.noConfusion h
    · injection h with h2
      exact h2 ▸ password_not_mem_toSafeUser _

/-- C1 witness: a concrete successful `saveUser` run on the list-based store
whose returned document has no `password` key. -/
theorem c1_witness :
    "password" ∉ docKeys (toSafeUser (userToDoc ⟨0, "alice", "secret", 0⟩)) :=
  c1_toSafeUser_drops_password.2.1 DBState listAdapter 0
    ⟨"alice", "secret", none⟩ ([], [])
    (toSafeUser (userToDoc ⟨0, "alice", "secret", 0⟩)) (by decide)

/-- C4: no user-service operation propagates a persistence exception: over
every adapter behavior each of the five operations returns either a success
or one of its fixed error strings, and whenever the adapter raises (with any
text `e`) the operation returns exactly its fixed generic message, never the
underlying exception text. -/
theorem c4_exceptions_never_propagate :
    (∀ (σ : Type) (A : Adapter σ) (now : Int) (inp : UserInput) (s : σ),
      (saveUser A now inp s).1 = UserResponse.error "Failed to create user" ∨
      (saveUser A now inp s).1 = UserResponse.error "Username already exists" ∨
      ∃ r, (saveUser A now inp s).1 = UserResponse.ok (toSafeUser (userToDoc r))) ∧
    (∀ (σ : Type) (A : Adapter σ) (name : String) (s : σ),
      (getUserByUsername A name s).1 = UserResponse.error "Failed to get user" ∨
      (getUserByUsername A name s).1 = UserResponse.error "User not found" ∨
      ∃ r, (getUserByUsername A name s).1 = UserResponse.ok (toSafeUser (userToDoc r))) ∧
    (∀ (σ : Type) (A : Adapter σ) (creds : UserCredentials) (s : σ),
      (loginUser A creds s).1 = UserResponse.error "Failed to login" ∨
      (loginUser A creds s).1 = UserResponse.error "Invalid credentials" ∨
      ∃ r, (loginUser A creds s).1 = UserResponse.ok (toSafeUser (userToDoc r))) ∧
    (∀ (σ : Type) (A : Adapter σ) (name : String) (s : σ),
      (deleteUserByUsername A name s).1 = UserResponse.error "Failed to delete user" ∨
      (deleteUserByUsername A name s).1 = UserResponse.error "User not found" ∨
      ∃ r, (deleteUserByUsername A name s).1 = UserResponse.ok (toSafeUser (userToDoc r))) ∧
    (∀ (σ : Type) (A : Adapter σ) (name : String) (upd : PartialUser) (s : σ),
      (updateUser A name upd s).1 = UserResponse.error "Failed to update user" ∨
      (updateUser A name upd s).1 = UserResponse.error "User not found" ∨
      ∃ r, (updateUser A name upd s).1 = UserResponse.ok (toSafeUser (userToDoc r))) ∧
    (∀ (σ : Type) (e : String) (s0 s : σ) (now : Int) (inp : UserInput)
        (name delName updName : String) (creds : UserCredentials) (upd : PartialUser),
      (saveUser (throwAdapter σ e s0) now inp s).1 =
        UserResponse.error "Failed to create user" ∧
      (getUserByUsername (throwAdapter σ e s0) name s).1 =
        UserResponse.error "Failed to get user" ∧
      (loginUser (throwAdapter σ e s0) creds s).1 =
        UserResponse.error "Failed to login" ∧
      (deleteUserByUsername (throwAdapter σ e s0) delName s).1 =
        UserResponse.error "Failed to delete user" ∧
      (updateUser (throwAdapter σ e s0) updName upd s).1 =
        UserResponse.error "Failed to update user") :=
  ⟨fun _ A now inp s => saveUser_shape A now inp s,
   fun _ A name s => getUserByUsername_shape A name s,
   fun _ A creds s => loginUser_shape A creds s,
   fun _ A name s => deleteUserByUsername_shape A name s,
   fun _ A name upd s => updateUser_shape A name upd s,
   fun _ _ _ _ _ _ _ _ _ _ _ => ⟨rfl, rfl, rfl, rfl, rfl⟩⟩

/-- Distributes `findFirst` over store concatenation like `find?`. -/
theorem findFirst_append (u : String) (s t : Store) :
    findFirst u (s ++ t) = (findFirst u s).or (findFirst u t) :=
  List.find?_append

/-- Evaluates `saveUser` over the concrete list store: a duplicate of the
trimmed username yields the fixed error and leaves the store untouched; a
blank trimmed username or password makes `create` fail the schema's
`required` validation, caught as `"Failed to create user"` with the store
untouched; otherwise the trimmed record is appended and its safe projection
returned. -/
theorem saveUser_listAdapter (now : Int) (inp : UserInput) (store : Store)
    (log : List DBCall) :
    saveUser listAdapter now inp (store, log) =
      match findFirst (jsTrim inp.username) store with
      | some _ =>
        (UserResponse.error "Username already exists",
         (store, log ++ [DBCall.findOne (jsTrim inp.username)]))
      | none =>
        if jsTrim inp.username = "" ∨ jsTrim inp.password = "" then
          (UserResponse.error "Failed to create user",
           (store,
            (log ++ [DBCall.findOne (jsTrim inp.username)]) ++
              [DBCall.create (jsTrim inp.username) (jsTrim inp.password) now]))
        else
          (UserResponse.ok (toSafeUser (userToDoc
             ⟨store.length, jsTrim inp.username, jsTrim inp.password, now⟩)),
           (store ++ [⟨store.length, jsTrim inp.username, jsTrim inp.password, now⟩],
            (log ++ [DBCall.findOne (jsTrim inp.username)]) ++
              [DBCall.create (jsTrim inp.username) (jsTrim inp.password) now])) := by
  cases h : findFirst (jsTrim inp.username) store with
  | some r =>
    unfold saveUser listAdapter
    dsimp only
    rw [h]
  | none =>
    unfold saveUser listAdapter
    dsimp only
    rw [h]
    dsimp only
    by_cases hv : jsTrim inp.username = "" ∨ jsTrim inp.password = ""
    · rw [if_pos hv, if_pos hv]
    · rw [if_neg hv, if_neg hv, h]
      rfl

/-- C3 counterexample: the claim fails for blank-after-trim input. With
username `" "` the second `saveUser` returns `"Failed to create user"`
(the schema's `required` validation), not `"Username already exists"`; and
with a blank first password and a fresh username the first call fails, so
the second call succeeds and creates a record. -/
theorem c3_counterexample :
    (jsTrim " " = "") ∧
    ((saveUser listAdapter 1 ⟨" ", "x", none⟩
        (saveUser listAdapter 0 ⟨" ", "x", none⟩ ([], [])).2).1 =
      UserResponse.error "Failed to create user") ∧
    ((saveUser listAdapter 1 ⟨" ", "x", none⟩
        (saveUser listAdapter 0 ⟨" ", "x", none⟩ ([], [])).2).1 ≠
      UserResponse.error "Username already exists") ∧
    ((saveUser listAdapter 0 ⟨"bob", " ", none⟩ ([], [])).2.1 = []) ∧
    ((saveUser listAdapter 1 ⟨"bob", "secret", none⟩
        (saveUser listAdapter 0 ⟨"bob", " ", none⟩ ([], [])).2).1 =
      UserResponse.ok (toSafeUser (userToDoc ⟨0, "bob", "secret", 1⟩))) ∧
    ((saveUser listAdapter 1 ⟨"bob", "secret", none⟩
        (saveUser listAdapter 0 ⟨"bob", " ", none⟩ ([], [])).2).2.1 =
      [⟨0, "bob", "secret", 1⟩]) := by decide

/-- C3 (amended): for every username whose trimmed form is non-empty and
every first-call password whose trimmed form is non-empty (so the first
create passes the schema's `required` validation), calling `saveUser` and
then immediately calling it again with the same username (any second
password, any clock values, any starting store) yields
`"Username already exists"` on the second call, and the second call leaves
the stored records unchanged. -/
theorem c3_second_save_rejected :
    ∀ (store : Store) (log : List DBCall) (n1 n2 : Int) (u p1 p2 : String),
      jsTrim u ≠ "" → jsTrim p1 ≠ "" →
      (saveUser listAdapter n2 ⟨u, p2, none⟩
         (saveUser listAdapter n1 ⟨u, p1, none⟩ (store, log)).2).1 =
        UserResponse.error "Username already exists" ∧
      (saveUser listAdapter n2 ⟨u, p2, none⟩
         (saveUser listAdapter n1 ⟨u, p1, none⟩ (store, log)).2).2.1 =
        (saveUser listAdapter n1 ⟨u, p1, none⟩ (store, log)).2.1 := by
  intro store log n1 n2 u p1 p2 hu hp
  have hneg : ¬(jsTrim u = "" ∨ jsTrim p1 = "") := by
    intro hc
    rcases hc with hc | hc
    · exact hu hc
    · exact hp hc
  rw [saveUser_listAdapter n1 ⟨u, p1, none⟩ store log]
  cases h : findFirst (jsTrim u) store with
  | some r =>
    dsimp only
    rw [saveUser_listAdapter, h]
    exact ⟨rfl, rfl⟩
  | none =>
    dsimp only
    rw [if_neg hneg]
    dsimp only
    rw [saveUser_listAdapter, findFirst_append, h]
    have h2 : findFirst (jsTrim u)
        [⟨store.length, jsTrim u, jsTrim p1, n1⟩] =
        some ⟨store.length, jsTrim u, jsTrim p1, n1⟩ := by
      simp [findFirst, List.find?]
    rw [Option.none_or, h2]
    exact ⟨rfl, rfl⟩

/-- C3 witness: a concrete non-blank signup made twice: the second call is
rejected with `"Username already exists"` and creates nothing. -/
theorem c3_witness :
    (saveUser listAdapter 1 ⟨"bob", "pw2", none⟩
       (saveUser listAdapter 0 ⟨"bob", "pw1", none⟩ ([], [])).2).1 =
      UserResponse.error "Username already exists" ∧
    (saveUser listAdapter 1 ⟨"bob", "pw2", none⟩
       (saveUser listAdapter 0 ⟨"bob", "pw1", none⟩ ([], [])).2).2.1 =
      (saveUser listAdapter 0 ⟨"bob", "pw1", none⟩ ([], [])).2.1 :=
  c3_second_save_rejected [] [] 0 1 "bob" "pw1" "pw2" (by decide) (by decide)

/-- Evaluates `loginUser` over the concrete list store: it always performs exactly one
`findOne` lookup with the trimmed username, and the outcome is decided by
the first record matching that username and its stored password. -/
theorem loginUser_listAdapter (creds : UserCredentials) (store : Store)
    (log : List DBCall) :
    loginUser listAdapter creds (store, log) =
      ((match findFirst (jsTrim creds.username) store with
        | none => UserResponse.error "Invalid credentials"
        | some r =>
          if r.password = jsTrim creds.password then
            UserResponse.ok (toSafeUser (userToDoc r))
          else UserResponse.error "Invalid credentials"),
       (store, log ++ [DBCall.findOne (jsTrim creds.username)])) := by
  cases h : findFirst (jsTrim creds.username) store with
  | some r =>
    unfold loginUser listAdapter
    dsimp only
    rw [h]
    dsimp only
    split <;> rfl
  | none =>
    unfold loginUser listAdapter
    dsimp only
    rw [h]

/-- C2 counterexample: credentials that are blank after trimming (empty
username, whitespace-only password) on a store holding a record with blank
username and blank password: `loginUser` does perform the `findOne` lookup
and returns a success, not `{error: "Invalid credentials"}`. -/
theorem c2_counterexample :
    (jsTrim "" = "" ∧ jsTrim " " = "") ∧
    (loginUser listAdapter ⟨"", " "⟩ ([⟨0, "", "", 0⟩], [])).1 ≠
      UserResponse.error "Invalid credentials" ∧
    (loginUser listAdapter ⟨"", " "⟩ ([⟨0, "", "", 0⟩], [])).2.2 =
      [DBCall.findOne ""] := by decide

/-- C2 (amended): for every credentials object whose username or password is
empty or whitespace-only after trimming and every store state, `loginUser`
still performs the persistence lookup with the trimmed (blank) username —
blank input is treated as an ordinary credential value, not rejected before
the query — and it returns `{error: "Invalid credentials"}` exactly when the
first record matching that trimmed username is absent or its stored
password differs from the trimmed supplied password. -/
theorem c2_blank_credentials_ordinary_lookup :
    ∀ (store : Store) (log : List DBCall) (creds : UserCredentials),
      jsTrim creds.username = "" ∨ jsTrim creds.password = "" →
      (loginUser listAdapter creds (store, log)).2.2 =
        log ++ [DBCall.findOne (jsTrim creds.username)] ∧
      (loginUser listAdapter creds (store, log)).1 =
        (match findFirst (jsTrim creds.username) store with
         | none => UserResponse.error "Invalid credentials"
         | some r =>
           if r.password = jsTrim creds.password then
             UserResponse.ok (toSafeUser (userToDoc r))
           else UserResponse.error "Invalid credentials") := by
  intro store log creds _
  rw [loginUser_listAdapter]
  exact ⟨rfl, rfl⟩

/-- C2 witness: blank credentials on the empty store: the lookup happens and
the result is `Invalid credentials`. -/
theorem c2_witness :
    (loginUser listAdapter ⟨"", "x"⟩ ([], [])).2.2 = [DBCall.findOne ""] ∧
    (loginUser listAdapter ⟨"", "x"⟩ ([], [])).1 =
      UserResponse.error "Invalid credentials" := by
  have h := c2_blank_credentials_ordinary_lookup [] [] ⟨"", "x"⟩ (Or.inl (by decide))
  exact ⟨h.1, h.2⟩

/-- The patch built by `updateUser` is exactly the trimmed `username` and
`password` fields of the partial update when present, and nothing else:
`dateJoined` is never placed in the patch. -/
theorem buildPatch_eq (upd : PartialUser) :
    buildPatch upd =
      ⟨upd.username.map jsTrim, upd.password.map jsTrim, none⟩ := by
  unfold buildPatch
  cases upd.username <;> cases upd.password <;> rfl

/-- A patch that does not touch `username` or `dateJoined` preserves the
`_id`, `username` and `dateJoined` of every stored record. -/
theorem updateFirst_frame (u : String) (p : Patch) (store : Store)
    (hu : p.username = none) (hd : p.dateJoined = none) :
    (updateFirst u p store).map (fun q => (q._id, q.username, q.dateJoined)) =
      store.map (fun q => (q._id, q.username, q.dateJoined)) := by
  induction store with
  | nil => rfl
  | cons r rs ih =>
    unfold updateFirst
    by_cases h : (r.username == u) = true
    · rw [if_pos h]
      simp only [List.map_cons, ih]
      unfold applyPatch
      rw [hu, hd]
      rfl
    · rw [if_neg h]
      simp only [List.map_cons, ih]

/-- Evaluates `updateUser` over the concrete list store: `"User not found"` (store
untouched) when no record matches the trimmed name, otherwise the patch is
applied to the first match and the post-update safe projection returned. -/
theorem updateUser_listAdapter (name : String) (upd : PartialUser)
    (store : Store) (log : List DBCall) :
    updateUser listAdapter name upd (store, log) =
      match findFirst (jsTrim name) store with
      | none =>
        (UserResponse.error "User not found",
         (store, log ++ [DBCall.findOneAndUpdate (jsTrim name) (buildPatch upd)]))
      | some r =>
        (UserResponse.ok (toSafeUser (userToDoc (applyPatch (buildPatch upd) r))),
         (updateFirst (jsTrim name) (buildPatch upd) store,
          log ++ [DBCall.findOneAndUpdate (jsTrim name) (buildPatch upd)])) := by
  cases h : findFirst (jsTrim name) store with
  | some r =>
    unfold updateUser listAdapter
    dsimp only
    rw [h]
  | none =>
    unfold updateUser listAdapter
    dsimp only
    rw [h]

/-- C5: `updateUser` builds a patch containing only the recognized
`username`/`password` fields (each trimmed) and nothing else; it returns
`{error: "User not found"}` (with the store unchanged) when no record
matches the trimmed name; and a successful password-only update returns a
document with no `password` key whose `username`/`dateJoined` are those of
the matched record, while every stored record keeps its `_id`, `username`
and `dateJoined`. -/
theorem c5_updateUser_patch_and_frame :
    (∀ upd : PartialUser,
      buildPatch upd = ⟨upd.username.map jsTrim, upd.password.map jsTrim, none⟩) ∧
    (∀ (store : Store) (log : List DBCall) (name : String) (upd : PartialUser),
      findFirst (jsTrim name) store = none →
      updateUser listAdapter name upd (store, log) =
        (UserResponse.error "User not found",
         (store, log ++ [DBCall.findOneAndUpdate (jsTrim name) (buildPatch upd)]))) ∧
    (∀ (store : Store) (log : List DBCall) (name pw : String) (r : UserRec),
      findFirst (jsTrim name) store = some r →
      (updateUser listAdapter name ⟨none, some pw, none⟩ (store, log)).1 =
        UserResponse.ok (toSafeUser (userToDoc
          ⟨r._id, r.username, jsTrim pw, r.dateJoined⟩)) ∧
      "password" ∉ docKeys (toSafeUser (userToDoc
          ⟨r._id, r.username, jsTrim pw, r.dateJoined⟩)) ∧
      dget (toSafeUser (userToDoc ⟨r._id, r.username, jsTrim pw, r.dateJoined⟩))
          "username" = DVal.vStr r.username ∧
      dget (toSafeUser (userToDoc ⟨r._id, r.username, jsTrim pw, r.dateJoined⟩))
          "dateJoined" = DVal.vInt r.dateJoined ∧
      (updateUser listAdapter name ⟨none, some pw, none⟩ (store, log)).2.1.map
          (fun q => (q._id, q.username, q.dateJoined)) =
        store.map (fun q => (q._id, q.username, q.dateJoined))) := by
  refine ⟨buildPatch_eq, ?_, ?_⟩
  · intro store log name upd h
    rw [updateUser_listAdapter, h]
  · intro store log name pw r h
    rw [updateUser_listAdapter, h]
    refine ⟨rfl, password_not_mem_toSafeUser _, rfl, rfl, ?_⟩
    exact updateFirst_frame (jsTrim name) (buildPatch ⟨none, some pw, none⟩)
      store rfl rfl

/-- C5 witness: a nonexistent user yields `User not found`, and a concrete
password-only update leaves username, dateJoined and the rest of the store
intact while returning a password-free document. -/
theorem c5_witness :
    updateUser listAdapter "ghost" ⟨none, some "new", none⟩ ([], []) =
      (UserResponse.error "User not found",
       ([], [DBCall.findOneAndUpdate "ghost" (buildPatch ⟨none, some "new", none⟩)])) ∧
    (updateUser listAdapter "alice" ⟨none, some "new", none⟩
        ([⟨0, "alice", "old", 7⟩], [])).1 =
      UserResponse.ok (toSafeUser (userToDoc ⟨0, "alice", "new", 7⟩)) ∧
    (updateUser listAdapter "alice" ⟨none, some "new", none⟩
        ([⟨0, "alice", "old", 7⟩], [])).2.1.map
        (fun q => (q._id, q.username, q.dateJoined)) =
      [(0, "alice", (7 : Int))] := by
  have h1 := c5_updateUser_patch_and_frame.2.1 [] [] "ghost"
    ⟨none, some "new", none⟩ (by decide)
  have h2 := c5_updateUser_patch_and_frame.2.2 [⟨0, "alice", "old", 7⟩] []
    "alice" "new" ⟨0, "alice", "old", 7⟩ (by decide)
  exact ⟨h1, h2.1, h2.2.2.2.2⟩

/-- Evaluates `saveMessage` over the concrete list store: blank-after-trim `msg` or
`msgFrom` yields the fixed error with the store untouched; otherwise the
trimmed record (with the supplied date, or the clock when absent) is
appended and returned in full. -/
theorem saveMessage_listMsgAdapter (now : Int) (m : MessageInput)
    (store : List MessageRec) :
    saveMessage listMsgAdapter now m store =
      if jsTrim m.msg = "" ∨ jsTrim m.msgFrom = "" then
        (MessageResponse.error "Invalid message body", store)
      else
        (MessageResponse.ok
           ⟨store.length, jsTrim m.msg, jsTrim m.msgFrom,
            m.msgDateTime.getD (JSDate.valid now)⟩,
         store ++ [⟨store.length, jsTrim m.msg, jsTrim m.msgFrom,
            m.msgDateTime.getD (JSDate.valid now)⟩]) := by
  cases hd : m.msgDateTime with
  | some d =>
    unfold saveMessage listMsgAdapter
    dsimp only
    rw [hd]
    rfl
  | none =>
    unfold saveMessage listMsgAdapter
    dsimp only
    rw [hd]
    rfl

/-- C6: for every candidate message whose `msg` or `msgFrom` is empty after
trimming, `saveMessage` returns `{error: "Invalid message body"}` and the
store is unchanged; otherwise it persists the trimmed fields with the
computed timestamp and returns the full created record as-is (including its
`_id` — no safe projection). -/
theorem c6_saveMessage_validation :
    ∀ (now : Int) (store : List MessageRec) (m : MessageInput),
      (jsTrim m.msg = "" ∨ jsTrim m.msgFrom = "" →
        saveMessage listMsgAdapter now m store =
          (MessageResponse.error "Invalid message body", store)) ∧
      (jsTrim m.msg ≠ "" → jsTrim m.msgFrom ≠ "" →
        saveMessage listMsgAdapter now m store =
          (MessageResponse.ok
             ⟨store.length, jsTrim m.msg, jsTrim m.msgFrom,
              m.msgDateTime.getD (JSDate.valid now)⟩,
           store ++ [⟨store.length, jsTrim m.msg, jsTrim m.msgFrom,
              m.msgDateTime.getD (JSDate.valid now)⟩])) := by
  intro now store m
  constructor
  · intro h
    rw [saveMessage_listMsgAdapter, if_pos h]
  · intro h1 h2
    rw [saveMessage_listMsgAdapter, if_neg (by
      intro h
      rcases h with h | h
      · exact h1 h
      · exact h2 h)]

/-- C6 witness: the spec's concrete cases: `{msg: "", msgFrom: "User1"}` is
rejected with no record created, and a well-formed message is persisted and
returned in full. -/
theorem c6_witness :
    saveMessage listMsgAdapter 9 ⟨"", "User1", none⟩ [] =
      (MessageResponse.error "Invalid message body", []) ∧
    saveMessage listMsgAdapter 9 ⟨" Hello ", "User1", none⟩ [] =
      (MessageResponse.ok ⟨0, "Hello", "User1", JSDate.valid 9⟩,
       [⟨0, "Hello", "User1", JSDate.valid 9⟩]) := by
  have h1 := (c6_saveMessage_validation 9 [] ⟨"", "User1", none⟩).1
    (Or.inl (by decide))
  have h2 := (c6_saveMessage_validation 9 [] ⟨" Hello ", "User1", none⟩).2
    (by decide) (by decide)
  exact ⟨h1, h2⟩

/-- C8: whenever the persistence fetch raises, `getMessages` returns the
empty sequence rather than surfacing an error, so its value on a failing
store equals its value on an empty store. -/
theorem c8_getMessages_swallows_errors :
    (∀ (σ : Type) (A : MsgAdapter σ) (s s1 : σ) (e : String),
      A.findSorted s = (DBRes.threw e, s1) → (getMessages A s).1 = []) ∧
    (∀ (e : String) (s : List MessageRec),
      (getMessages (throwMsgAdapter e) s).1 = []) ∧
    (getMessages listMsgAdapter []).1 = [] ∧
    (∀ (e : String) (s : List MessageRec),
      (getMessages (throwMsgAdapter e) s).1 =
        (getMessages listMsgAdapter []).1) := by
  refine ⟨?_, fun _ _ => rfl, rfl, fun _ _ => rfl⟩
  intro σ A s s1 e h
  unfold getMessages
  rw [h]

/-- C8 witness: a fetch that throws `"DB error"` yields the empty list. -/
theorem c8_witness :
    (getMessages (throwMsgAdapter "DB error") [⟨0, "Hello", "User1", JSDate.valid 1⟩]).1 = [] :=
  c8_getMessages_swallows_errors.1 (List MessageRec) (throwMsgAdapter "DB error")
    [⟨0, "Hello", "User1", JSDate.valid 1⟩] [⟨0, "Hello", "User1", JSDate.valid 1⟩]
    "DB error" rfl

/-- Reflexivity of `dateLe`. -/
theorem dateLe_refl (d : JSDate) : dateLe d d := by
  cases d
  · exact le_refl _
  · trivial

/-- Evaluates `getMessages` over the concrete list store: the stable ascending sort
of the stored messages (sorting the already-sorted fetch is a no-op). -/
theorem getMessages_listMsgAdapter (store : List MessageRec) :
    getMessages listMsgAdapter store = (List.insertionSort msgLe store, store) := by
  unfold getMessages listMsgAdapter
  dsimp only
  rw [List.Sorted.insertionSort_eq (List.sorted_insertionSort msgLe store)]

/-- Stability of the sort, key-by-key: the messages carrying any fixed
timestamp appear in the output in exactly their store (insertion) order. -/
theorem insertionSort_filter_date (store : List MessageRec) (t : JSDate) :
    (List.insertionSort msgLe store).filter (fun m => m.msgDateTime == t) =
      store.filter (fun m => m.msgDateTime == t) := by
  have hpair : (store.filter (fun m => m.msgDateTime == t)).Pairwise msgLe := by
    apply List.pairwise_of_forall_mem_list
    intro a ha b hb
    have ha2 : a.msgDateTime = t := by
      simpa using (List.mem_filter.mp ha).2
    have hb2 : b.msgDateTime = t := by
      simpa using (List.mem_filter.mp hb).2
    unfold msgLe
    rw [ha2, hb2]
    exact dateLe_refl t
  have hsub : List.Sublist (store.filter (fun m => m.msgDateTime == t))
      (List.insertionSort msgLe store) :=
    List.sublist_insertionSort hpair (List.filter_sublist store)
  have hsub2 : List.Sublist (store.filter (fun m => m.msgDateTime == t))
      ((List.insertionSort msgLe store).filter (fun m => m.msgDateTime == t)) := by
    have h3 := hsub.filter (fun m => m.msgDateTime == t)
    rwa [List.filter_eq_self.mpr
      (fun a ha => (List.mem_filter.mp ha).2)] at h3
  have hlen : ((List.insertionSort msgLe store).filter
      (fun m => m.msgDateTime == t)).length =
      (store.filter (fun m => m.msgDateTime == t)).length := by
    rw [← List.countP_eq_length_filter, ← List.countP_eq_length_filter]
    exact (List.perm_insertionSort msgLe store).countP_eq _
  exact (hsub2.eq_of_length hlen.symm).symm

/-- C7: `getMessages` returns every stored message in ascending
`msgDateTime` order (on valid dates, ascending `getTime`), with equal
timestamps kept in stable/insertion order; in particular for the messages
dated 2024-06-04 and 2024-06-05 inserted in reverse order the output order
is [2024-06-04, 2024-06-05]. -/
theorem c7_getMessages_ascending_stable :
    (∀ store : List MessageRec,
      ((getMessages listMsgAdapter store).1.Perm store) ∧
      (getMessages listMsgAdapter store).1.Sorted msgLe ∧
      (getMessages listMsgAdapter store).1.Pairwise (fun a b =>
        ∀ x y, a.msgDateTime = JSDate.valid x → b.msgDateTime = JSDate.valid y →
          x ≤ y) ∧
      (∀ t : JSDate,
        (getMessages listMsgAdapter store).1.filter (fun m => m.msgDateTime == t) =
          store.filter (fun m => m.msgDateTime == t))) ∧
    ((getMessages listMsgAdapter
        [⟨0, "Hi", "User2", JSDate.valid 1717545600000⟩,
         ⟨1, "Hello", "User1", JSDate.valid 1717459200000⟩]).1 =
      [⟨1, "Hello", "User1", JSDate.valid 1717459200000⟩,
       ⟨0, "Hi", "User2", JSDate.valid 1717545600000⟩]) := by
  refine ⟨fun store => ?_, by decide⟩
  rw [getMessages_listMsgAdapter]
  dsimp only
  refine ⟨List.perm_insertionSort msgLe store,
    List.sorted_insertionSort msgLe store, ?_,
    fun t => insertionSort_filter_date store t⟩
  exact List.Pairwise.imp
    (fun hab x y hx hy => by
      unfold msgLe at hab
      rw [hx, hy] at hab
      exact hab)
    (List.sorted_insertionSort msgLe store)

/-- C7 witness: a concrete three-message store with a tie: ascending order
with the tied pair kept in insertion order. -/
theorem c7_witness :
    (getMessages listMsgAdapter
        [⟨0, "b", "U2", JSDate.valid 4⟩, ⟨1, "a", "U1", JSDate.valid 4⟩,
         ⟨2, "c", "U3", JSDate.valid 1⟩]).1.filter
        (fun m => m.msgDateTime == JSDate.valid 4) =
      ([⟨0, "b", "U2", JSDate.valid 4⟩, ⟨1, "a", "U1", JSDate.valid 4⟩,
        ⟨2, "c", "U3", JSDate.valid 1⟩] : List MessageRec).filter
        (fun m => m.msgDateTime == JSDate.valid 4) :=
  (c7_getMessages_ascending_stable.1
    [⟨0, "b", "U2", JSDate.valid 4⟩, ⟨1, "a", "U1", JSDate.valid 4⟩,
     ⟨2, "c", "U3", JSDate.valid 1⟩]).2.2.2 (JSDate.valid 4)

/-- C9 counterexample: a caller-supplied `msgDateTime` of `0` (a valid JSON
date value: the epoch) is JavaScript-falsy, so `addMessageRoute` silently
replaces it with the current clock (`valid 5` here) instead of parsing and
using the supplied value (`valid 0`): the timestamp is not defaulted "only
when msgDateTime is not supplied". -/
theorem c9_counterexample :
    normalizeMsgDateTime (fun _ => JSDate.invalid) 5 (some (JSONVal.jnum 0)) =
      JSDate.valid 5 ∧
    parseJSDate (fun _ => JSDate.invalid) (JSONVal.jnum 0) = JSDate.valid 0 ∧
    JSDate.valid 5 ≠ JSDate.valid 0 := by decide

/-- C9 (amended): the message timestamp is defaulted to the current process
clock when `msgDateTime` is absent or JavaScript-falsy (`""` or `0`);
whenever a truthy `msgDateTime` is supplied it is parsed and used with no
validation that it is a sane date (an `Invalid Date` parse is accepted
silently); at the service layer, where a present `msgDateTime` is a `Date`
(always truthy), every record `saveMessage` creates carries exactly the
supplied date — valid or not — and the clock only when none was supplied. -/
theorem c9_timestamp_passthrough :
    (∀ (dateOf : String → JSDate) (now : Int),
      normalizeMsgDateTime dateOf now none = JSDate.valid now) ∧
    (∀ (dateOf : String → JSDate) (now : Int) (v : JSONVal),
      v.truthy = false →
      normalizeMsgDateTime dateOf now (some v) = JSDate.valid now) ∧
    (∀ (dateOf : String → JSDate) (now : Int) (v : JSONVal),
      v.truthy = true →
      normalizeMsgDateTime dateOf now (some v) = parseJSDate dateOf v) ∧
    (∀ (now : Int) (store : List MessageRec) (m : MessageInput)
        (rec : MessageRec),
      (saveMessage listMsgAdapter now m store).1 = MessageResponse.ok rec →
      rec.msgDateTime = m.msgDateTime.getD (JSDate.valid now)) := by
  refine ⟨fun _ _ => rfl, ?_, ?_, ?_⟩
  · intro dateOf now v h
    unfold normalizeMsgDateTime
    dsimp only
    rw [h]
    rfl
  · intro dateOf now v h
    unfold normalizeMsgDateTime
    dsimp only
    rw [h]
    rfl
  · intro now store m rec h
    rw [saveMessage_listMsgAdapter] at h
    by_cases hb : jsTrim m.msg = "" ∨ jsTrim m.msgFrom = ""
    · rw [if_pos hb] at h
      exact MessageResponse.noConfusion h
    · rw [if_neg hb] at h
      injection h with h2
      rw [← h2]

/-- C9 witness: a truthy string date parsed to `Invalid Date` is used as-is
by the route normalization, and `saveMessage` stores a supplied invalid
date unchanged while defaulting to the clock only when none is supplied. -/
theorem c9_witness :
    normalizeMsgDateTime (fun _ => JSDate.invalid) 7
        (some (JSONVal.jstr "not-a-date")) = JSDate.invalid ∧
    (⟨0, "Hello", "User1", JSDate.invalid⟩ : MessageRec).msgDateTime =
      (some JSDate.invalid).getD (JSDate.valid 7) ∧
    (⟨0, "Hello", "User1", JSDate.valid 7⟩ : MessageRec).msgDateTime =
      (none : Option JSDate).getD (JSDate.valid 7) := by
  refine ⟨?_, ?_, ?_⟩
  · exact c9_timestamp_passthrough.2.2.1 (fun _ => JSDate.invalid) 7
      (JSONVal.jstr "not-a-date") (by decide)
  · exact c9_timestamp_passthrough.2.2.2 7 []
      ⟨"Hello", "User1", some JSDate.invalid⟩
      ⟨0, "Hello", "User1", JSDate.invalid⟩ (by decide)
  · exact c9_timestamp_passthrough.2.2.2 7 []
      ⟨"Hello", "User1", none⟩
      ⟨0, "Hello", "User1", JSDate.valid 7⟩ (by decide)

/-- C10: the `getUser` and `deleteUser` handlers read the username from the
request body (`req.body.username`), not the `:username` path parameter —
their behavior is independent of the path parameter — and when the body
username is missing (or empty) they send the 400 response but do not
return: the corresponding service operation is still called with the
missing username. -/
theorem c10_handlers_missing_username_still_call_service :
    (∀ (svc : Option String → UserResponse) (req : UserByUsernameRequest)
        (p : Option String),
      getUser svc req = getUser svc ⟨p, req.bodyUsername⟩ ∧
      deleteUser svc req = deleteUser svc ⟨p, req.bodyUsername⟩) ∧
    (∀ (svc : Option String → UserResponse) (req : UserByUsernameRequest),
      strFalsy req.bodyUsername = true →
      ((getUser svc req).take 2 =
        [HEvent.resStatusSend 400 "Invalid username is required",
         HEvent.svcCall req.bodyUsername] ∧
       HEvent.svcCall req.bodyUsername ∈ getUser svc req) ∧
      ((deleteUser svc req).take 2 =
        [HEvent.resStatusSend 400 "Invalid username is required",
         HEvent.svcCall req.bodyUsername] ∧
       HEvent.svcCall req.bodyUsername ∈ deleteUser svc req)) := by
  constructor
  · intro svc req p
    exact ⟨rfl, rfl⟩
  · intro svc req h
    constructor
    · unfold getUser
      dsimp only
      rw [h]
      constructor
      · cases svc req.bodyUsername <;> rfl
      · cases svc req.bodyUsername <;> simp
    · unfold deleteUser
      dsimp only
      rw [h]
      constructor
      · cases svc req.bodyUsername <;> rfl
      · cases svc req.bodyUsername <;> simp

/-- C10 witness: a request whose path parameter is set but whose body has no
username: both handlers send 400 and still call the service with the
missing username. -/
theorem c10_witness :
    (getUser (fun _ => UserResponse.error "User not found")
        ⟨some "alice", none⟩).take 2 =
      [HEvent.resStatusSend 400 "Invalid username is required",
       HEvent.svcCall none] ∧
    HEvent.svcCall none ∈ deleteUser (fun _ => UserResponse.error "User not found")
        ⟨some "alice", none⟩ := by
  have h := c10_handlers_missing_username_still_call_service.2
    (fun _ => UserResponse.error "User not found") ⟨some "alice", none⟩ rfl
  exact ⟨h.1.1, h.2.2⟩
